import Mathlib

/-!
# Verification of the `tween` interpolation engine

A shallow embedding of the core of the `tween` crate: the numeric capability
traits (`TweenValue`, `TweenTime`), the curve evaluation contract, and the
Linear and Elastic curve families, together with theorems settling the
specification's claims about them.

Modelling conventions:
* `f64` scalars are modelled as `ℚ`.  The crate's arithmetic on them
  (`+`, `-`, `*`, `/`) is exact rational arithmetic; the transcendental
  operations (`pow`, `sin`) and the constant `PI` come from a pluggable math
  backend (the crate selects `libm` or `std` intrinsics at build time), which
  we model as an explicit `MathOps` record of abstract functions.
* The `TweenValue` and `TweenTime` traits are modelled as records of
  operations (`TweenValueOps`, `TweenTimeOps`) over an arbitrary carrier
  type, mirroring the trait methods used by the embedded code.
* Each curve structure keeps the field names of the Rust source.
-/

namespace TweenLib

/-- The math backend: `pow`, `sin` and the constant `PI`, as selected by the
`libm`/`std` feature gate in the crate.  Modelled as abstract operations on
the `ℚ`-embedded `f64` scalars. -/
structure MathOps where
  pow : ℚ → ℚ → ℚ
  sin : ℚ → ℚ
  pi : ℚ

/-- Operations of the `TweenValue` trait (`src/lib.rs`): a value type is
closed under `Add`/`Sub` and supports `scale(self, f64) -> Self`.  The `ZERO`
constant is part of the value capability used by the `Tween2` formulation. -/
structure TweenValueOps (V : Type) where
  zero : V
  add : V → V → V
  sub : V → V → V
  scale : V → ℚ → V

/-- Operations of the `TweenTime` trait (`src/lib.rs`) used by the embedded
curves: `percent(duration, current_time) -> f64` and `to_f64`. -/
structure TweenTimeOps (T : Type) where
  percent : T → T → ℚ
  to_f64 : T → ℚ

/-- The `TweenValueOps` instance for `f64` (`impl TweenValue for f64`):
`scale` is plain multiplication. -/
def f64ValueOps : TweenValueOps ℚ :=
  { zero := 0, add := (· + ·), sub := (· - ·), scale := (· * ·) }

/-- The `TweenTimeOps` instance for `f64` (`impl TweenTime for f64`):
`percent` is `current_time / duration`, `to_f64` is the identity. -/
def f64TimeOps : TweenTimeOps ℚ :=
  { percent := fun duration current => current / duration, to_f64 := id }

/-- A trivial math backend used to instantiate theorems at concrete inputs;
the boundary claims never reach the transcendental terms, so any backend
serves. -/
def trivMathOps : MathOps :=
  { pow := fun _ _ => 0, sin := fun _ => 0, pi := 0 }

/-- `ElasticIn` curve state (`src/tweens/elastic.rs`): the value delta and
endpoint values, the duration, and the precomputed `three_tenths` (the
period) and `s` (quarter-period phase offset). -/
structure ElasticIn (V T : Type) where
  value_delta : V
  initial_value : V
  final_value : V
  duration : T
  three_tenths : ℚ
  s : ℚ

/-- `SizedTween::new` for `ElasticIn`: precompute `value_delta`,
`three_tenths = duration.to_f64() * 0.3` and `s = three_tenths * 0.25`. -/
def ElasticIn.new {V T : Type} (vo : TweenValueOps V) (to_ : TweenTimeOps T)
    (initial_value final_value : V) (duration : T) : ElasticIn V T :=
  let delta := vo.sub final_value initial_value
  let three_tenths := to_.to_f64 duration * (3 / 10)
  { value_delta := delta
    duration := duration
    three_tenths := three_tenths
    s := three_tenths * (1 / 4)
    initial_value := initial_value
    final_value := final_value }

/-- `ElasticIn::run` (`src/tweens/elastic.rs` lines 34–63). -/
def ElasticIn.run {V T : Type} (vo : TweenValueOps V) (to_ : TweenTimeOps T)
    (m : MathOps) (self : ElasticIn V T) (new_time : T) : V :=
  let t := to_.percent self.duration new_time
  if t = 0 then self.initial_value
  else if t = 1 then self.final_value
  else
    let t : ℚ := t - 1
    let scalar := m.pow 2 (t * 10)
    let post_fix := vo.scale self.value_delta scalar
    let temp := (to_.to_f64 self.duration * t - self.s) * (2 * m.pi) / self.three_tenths
    let scalar := - m.sin temp
    vo.add (vo.scale post_fix scalar) self.initial_value

/-- `ElasticOut` curve state (`src/tweens/elastic.rs`). -/
structure ElasticOut (V T : Type) where
  initial_value : V
  final_value : V
  value_delta : V
  duration : T
  three_tenths : ℚ
  s : ℚ

/-- `SizedTween::new` for `ElasticOut`: same precomputation as `ElasticIn`. -/
def ElasticOut.new {V T : Type} (vo : TweenValueOps V) (to_ : TweenTimeOps T)
    (initial_value final_value : V) (duration : T) : ElasticOut V T :=
  let delta := vo.sub final_value initial_value
  let three_tenths := to_.to_f64 duration * (3 / 10)
  { value_delta := delta
    duration := duration
    three_tenths := three_tenths
    s := three_tenths * (1 / 4)
    initial_value := initial_value
    final_value := final_value }

/-- `ElasticOut::run` (`src/tweens/elastic.rs` lines 127–147). -/
def ElasticOut.run {V T : Type} (vo : TweenValueOps V) (to_ : TweenTimeOps T)
    (m : MathOps) (self : ElasticOut V T) (new_time : T) : V :=
  let t := to_.percent self.duration new_time
  if t = 0 then self.initial_value
  else if t = 1 then self.final_value
  else
    let temp := (t * to_.to_f64 self.duration - self.s) * (2 * m.pi) / self.three_tenths
    let scalar := m.pow 2 (-10 * t) * m.sin temp
    vo.add (vo.add (vo.scale self.value_delta scalar) self.value_delta) self.initial_value

/-- `ElasticInOut` curve state (`src/tweens/elastic.rs`): precomputed period
`p` and phase offset `s`. -/
structure ElasticInOut (V T : Type) where
  initial_value : V
  final_value : V
  value_delta : V
  duration : T
  p : ℚ
  s : ℚ

/-- `SizedTween::new` for `ElasticInOut`: `p = duration.to_f64() * 0.45`,
`s = p * 0.25`. -/
def ElasticInOut.new {V T : Type} (vo : TweenValueOps V) (to_ : TweenTimeOps T)
    (initial_value final_value : V) (duration : T) : ElasticInOut V T :=
  let delta := vo.sub final_value initial_value
  let p := to_.to_f64 duration * (45 / 100)
  { value_delta := delta
    duration := duration
    p := p
    s := p * (1 / 4)
    initial_value := initial_value
    final_value := final_value }

/-- `ElasticInOut::run` (`src/tweens/elastic.rs` lines 211–258). -/
def ElasticInOut.run {V T : Type} (vo : TweenValueOps V) (to_ : TweenTimeOps T)
    (m : MathOps) (self : ElasticInOut V T) (new_time : T) : V :=
  let t := to_.percent self.duration new_time * 2
  if t = 0 then self.initial_value
  else if t = 2 then self.final_value
  else
    let t : ℚ := t - 1
    if t < 0 then
      let scalar := m.pow 2 (t * 10)
      let post_fix := vo.scale self.value_delta scalar
      let temp := (to_.to_f64 self.duration * t - self.s) * (2 * m.pi) / self.p
      let temp_sin := m.sin temp
      vo.add (vo.scale post_fix (-(1 / 2) * temp_sin)) self.initial_value
    else
      let scalar := m.pow 2 (-10 * t)
      let post_fix := vo.scale self.value_delta scalar
      let temp := (to_.to_f64 self.duration * t - self.s) * (2 * m.pi) / self.p
      let temp_sin := m.sin temp
      vo.add (vo.scale post_fix (temp_sin * (1 / 2))) self.final_value

/-- `Linear::tween` (`src/tweens/linear.rs`): the increment is
`value_delta.scale(percent)` — no special-casing at the boundaries. -/
def Linear.tween {V : Type} (vo : TweenValueOps V) (value_delta : V)
    (percent : ℚ) : V :=
  vo.scale value_delta percent

/-- `ElasticIn2` state (`src/tweens/elastic.rs`): the percent/delta
formulation of Elastic-In. -/
structure ElasticIn2 (T : Type) where
  duration : T
  three_tenths : ℚ
  s : ℚ

/-- `Tween2::tween` for `ElasticIn2` (`src/tweens/elastic.rs` lines
305–332): returns the increment relative to the initial value. -/
def ElasticIn2.tween {V T : Type} (vo : TweenValueOps V) (to_ : TweenTimeOps T)
    (m : MathOps) (self : ElasticIn2 T) (value_delta : V) (percent : ℚ) : V :=
  if percent = 0 then vo.zero
  else if percent = 1 then value_delta
  else
    let percent := percent - 1
    let scalar := m.pow 2 (percent * 10)
    let post_fix := vo.scale value_delta scalar
    let temp := (to_.to_f64 self.duration * percent - self.s) * (2 * m.pi) / self.three_tenths
    let scalar := - m.sin temp
    vo.scale post_fix scalar

/-- `ElasticOut2` state (`src/tweens/elastic.rs`). -/
structure ElasticOut2 (T : Type) where
  duration : T
  three_tenths : ℚ
  s : ℚ

/-- `Tween2::tween` for `ElasticOut2` (`src/tweens/elastic.rs` lines
348–366). -/
def ElasticOut2.tween {V T : Type} (vo : TweenValueOps V) (to_ : TweenTimeOps T)
    (m : MathOps) (self : ElasticOut2 T) (value_delta : V) (percent : ℚ) : V :=
  if percent = 0 then vo.zero
  else if percent = 1 then value_delta
  else
    let temp := (percent * to_.to_f64 self.duration - self.s) * (2 * m.pi) / self.three_tenths
    let scalar := m.pow 2 (-10 * percent) * m.sin temp
    vo.add (vo.scale value_delta scalar) value_delta

/-- `ElasticInOut2` state (`src/tweens/elastic.rs`). -/
structure ElasticInOut2 (T : Type) where
  duration : T
  p : ℚ
  s : ℚ

/-- `Tween2::tween` for `ElasticInOut2` (`src/tweens/elastic.rs` lines
382–430). -/
def ElasticInOut2.tween {V T : Type} (vo : TweenValueOps V) (to_ : TweenTimeOps T)
    (m : MathOps) (self : ElasticInOut2 T) (value_delta : V) (percent : ℚ) : V :=
  let percent := percent * 2
  if percent = 0 then vo.zero
  else if percent = 2 then value_delta
  else
    let percent := percent - 1
    if percent < 0 then
      let scalar := m.pow 2 (percent * 10)
      let post_fix := vo.scale value_delta scalar
      let temp := (to_.to_f64 self.duration * percent - self.s) * (2 * m.pi) / self.p
      let temp_sin := m.sin temp
      vo.scale post_fix (-(1 / 2) * temp_sin)
    else
      let scalar := m.pow 2 (-10 * percent)
      let post_fix := vo.scale value_delta scalar
      let temp := (to_.to_f64 self.duration * percent - self.s) * (2 * m.pi) / self.p
      let temp_sin := m.sin temp
      vo.add (vo.scale post_fix (temp_sin * (1 / 2))) value_delta

/-- The model of the `Tween` trait object (`src/lib.rs`): a `tween`
operation over captured mutable state `S` and the `is_finite` flag.
`FnMut` closures may mutate captured state, so `tween` threads the state
explicitly. -/
structure TweenRec (S V : Type) where
  tween : S → V → ℚ → V × S
  is_finite : S → Bool

/-- `impl<Value, F> Tween<Value> for F where F: FnMut(Value, f64) -> Value`
(`src/lib.rs` lines 85–93): `tween` calls the closure on its two arguments,
and `is_finite` keeps the trait's default body, which returns `true`
(`src/lib.rs` lines 51–53). -/
def fnMutTween (S V : Type) (f : S → V → ℚ → V × S) : TweenRec S V :=
  { tween := fun state value_delta percent => f state value_delta percent
    is_finite := fun _ => true }

/-- Modelled from the spec: `TweenTime::is_complete(current, duration)`,
absent from the `TweenTime` trait as it appears under `src/lib.rs`, defined
by the spec as `current >= duration` for every time type. -/
def TweenTime.is_complete {T : Type} [LE T] [∀ a b : T, Decidable (a ≤ b)]
    (current_time duration : T) : Bool :=
  decide (duration ≤ current_time)

/-- `impl TweenValue for f64`: `scale` is `self * scale` (`src/lib.rs`
lines 203–207). -/
def f64Scale (x : ℚ) (scale : ℚ) : ℚ := x * scale

/-- `impl TweenValue for f32`: `scale` is `(self as f64 * scale) as f32`
(`src/lib.rs` lines 197–201); the widening round-trip is exact, so in the
rational model it is multiplication followed by the identity narrowing. -/
def f32Scale (x : ℚ) (scale : ℚ) : ℚ := x * scale

/-- Modelled from the spec: the integer `TweenValue` implementations are
produced by `declare_value!` in `macros.rs`, which is absent from `src/`;
per the spec and the trait documentation, integer `scale` multiplies
through a floating-point intermediate and truncates (Rust `as` casts
truncate toward zero). -/
def intScale (x : ℤ) (scale : ℚ) : ℤ :=
  Int.tdiv ((x * scale : ℚ)).num ((x * scale : ℚ)).den

/-- C1: for every Elastic curve constructed from
`(initial_value, final_value, duration)`, `run` at a time whose computed
percent is `0` returns exactly `initial_value`, and `run` at a time whose
computed percent is `1` (doubled percent `2` for `ElasticInOut`) returns
exactly `final_value`, with no approximation. -/
theorem elastic_boundary_exact {V T : Type} (vo : TweenValueOps V)
    (to_ : TweenTimeOps T) (m : MathOps) (i f : V) (d : T) (t0 t1 : T)
    (hp0 : to_.percent d t0 = 0) (hp1 : to_.percent d t1 = 1) :
    (ElasticIn.new vo to_ i f d).run vo to_ m t0 = i ∧
    (ElasticIn.new vo to_ i f d).run vo to_ m t1 = f ∧
    (ElasticOut.new vo to_ i f d).run vo to_ m t0 = i ∧
    (ElasticOut.new vo to_ i f d).run vo to_ m t1 = f ∧
    (ElasticInOut.new vo to_ i f d).run vo to_ m t0 = i ∧
    (ElasticInOut.new vo to_ i f d).run vo to_ m t1 = f := by
  refine ⟨?_, ?_, ?_, ?_, ?_, ?_⟩ <;>
    simp [ElasticIn.run, ElasticOut.run, ElasticInOut.run, ElasticIn.new,
      ElasticOut.new, ElasticInOut.new, hp0, hp1]

/-- Witness for C1 at concrete inputs: `f64` values `3 → 7`, `f64`
duration `2`, times `0` and `2`. -/
theorem elastic_boundary_exact_witness :
    f64TimeOps.percent 2 0 = 0 ∧ f64TimeOps.percent 2 2 = 1 ∧
    (ElasticIn.new f64ValueOps f64TimeOps (3 : ℚ) 7 (2 : ℚ)).run f64ValueOps
      f64TimeOps trivMathOps 0 = 3 ∧
    (ElasticInOut.new f64ValueOps f64TimeOps (3 : ℚ) 7 (2 : ℚ)).run f64ValueOps
      f64TimeOps trivMathOps 2 = 7 := by
  have h := elastic_boundary_exact f64ValueOps f64TimeOps trivMathOps
    (3 : ℚ) 7 (2 : ℚ) 0 2 (by norm_num [f64TimeOps]) (by norm_num [f64TimeOps])
  exact ⟨by norm_num [f64TimeOps], by norm_num [f64TimeOps], h.1, h.2.2.2.2.2⟩

/-- C2: for every `ElasticOut` curve and every time whose percent `p` is
neither `0` nor `1`, `run` returns the sum of `initial_value`,
`value_delta`, and `value_delta` scaled by
`2^(−10·p) · sin((p·duration_as_f64 − s)·2π/period)`, i.e. the formula adds
`value_delta` one extra time relative to `ElasticIn`'s structure. -/
theorem elastic_out_formula {V T : Type} (vo : TweenValueOps V)
    (to_ : TweenTimeOps T) (m : MathOps) (i f : V) (d : T) (t : T)
    (hp0 : to_.percent d t ≠ 0) (hp1 : to_.percent d t ≠ 1) :
    (ElasticOut.new vo to_ i f d).run vo to_ m t =
      vo.add
        (vo.add
          (vo.scale (vo.sub f i)
            (m.pow 2 (-10 * to_.percent d t) *
              m.sin ((to_.percent d t * to_.to_f64 d - to_.to_f64 d * (3 / 10) * (1 / 4)) *
                (2 * m.pi) / (to_.to_f64 d * (3 / 10)))))
          (vo.sub f i))
        i := by
  simp [ElasticOut.run, ElasticOut.new, hp0, hp1]

/-- Witness for C2 at concrete inputs: percent `1/2` on a duration-`2`
curve from `3` to `7`; under the trivial math backend the oscillation term
vanishes and `run` returns `7`. -/
theorem elastic_out_formula_witness :
    f64TimeOps.percent 2 1 ≠ 0 ∧ f64TimeOps.percent 2 1 ≠ 1 ∧
    (ElasticOut.new f64ValueOps f64TimeOps (3 : ℚ) 7 (2 : ℚ)).run f64ValueOps
      f64TimeOps trivMathOps 1 = 7 :=
  ⟨by norm_num [f64TimeOps], by norm_num [f64TimeOps],
    (elastic_out_formula f64ValueOps f64TimeOps trivMathOps (3 : ℚ) 7 (2 : ℚ) 1
      (by norm_num [f64TimeOps]) (by norm_num [f64TimeOps])).trans
      (by norm_num [f64ValueOps, f64TimeOps, trivMathOps])⟩

/-- C3: `ElasticIn.new` precomputes `value_delta = final − initial`,
`period = 0.3 × duration_as_f64` and `s = period × 0.25`; and for every
time whose percent `p` is neither `0` nor `1`, `run` returns
`initial_value` plus `value_delta` scaled by `2^((p−1)·10)` and then scaled
by `−sin((duration_as_f64·(p−1) − s)·2π/period)`. -/
theorem elastic_in_formula {V T : Type} (vo : TweenValueOps V)
    (to_ : TweenTimeOps T) (m : MathOps) (i f : V) (d : T) (t : T)
    (hp0 : to_.percent d t ≠ 0) (hp1 : to_.percent d t ≠ 1) :
    (ElasticIn.new vo to_ i f d).value_delta = vo.sub f i ∧
    (ElasticIn.new vo to_ i f d).three_tenths = to_.to_f64 d * (3 / 10) ∧
    (ElasticIn.new vo to_ i f d).s = to_.to_f64 d * (3 / 10) * (1 / 4) ∧
    (ElasticIn.new vo to_ i f d).run vo to_ m t =
      vo.add
        (vo.scale
          (vo.scale (vo.sub f i) (m.pow 2 ((to_.percent d t - 1) * 10)))
          (- m.sin ((to_.to_f64 d * (to_.percent d t - 1) - to_.to_f64 d * (3 / 10) * (1 / 4)) *
            (2 * m.pi) / (to_.to_f64 d * (3 / 10)))))
        i := by
  refine ⟨rfl, rfl, rfl, ?_⟩
  simp [ElasticIn.run, ElasticIn.new, hp0, hp1]

/-- Witness for C3 at concrete inputs: percent `1/2` on a duration-`2`
curve from `3` to `7`; under the trivial math backend the oscillation term
vanishes and `run` returns `3`. -/
theorem elastic_in_formula_witness :
    f64TimeOps.percent 2 1 ≠ 0 ∧ f64TimeOps.percent 2 1 ≠ 1 ∧
    (ElasticIn.new f64ValueOps f64TimeOps (3 : ℚ) 7 (2 : ℚ)).run f64ValueOps
      f64TimeOps trivMathOps 1 = 3 :=
  ⟨by norm_num [f64TimeOps], by norm_num [f64TimeOps],
    ((elastic_in_formula f64ValueOps f64TimeOps trivMathOps (3 : ℚ) 7 (2 : ℚ) 1
      (by norm_num [f64TimeOps]) (by norm_num [f64TimeOps])).2.2.2).trans
      (by norm_num [f64ValueOps, f64TimeOps, trivMathOps])⟩

/-- C4: `ElasticInOut.new` precomputes `p = 0.45 × duration_as_f64` and
`s = p × 0.25`; `run` doubles the computed percent, short-circuits exactly
when the doubled percent is `0` (returning `initial_value`) or `2`
(returning `final_value`), and otherwise applies half-amplitude `0.5`
scaling to the oscillation: an Elastic-In-shaped branch offset from
`initial_value` when `doubled − 1 < 0`, and an Elastic-Out-shaped branch
offset from `final_value` otherwise. -/
theorem elastic_in_out_formula {V T : Type} (vo : TweenValueOps V)
    (to_ : TweenTimeOps T) (m : MathOps) (i f : V) (d : T) (t0 t2 ta tb : T)
    (h0 : to_.percent d t0 * 2 = 0) (h2 : to_.percent d t2 * 2 = 2)
    (haN0 : to_.percent d ta * 2 ≠ 0) (haN2 : to_.percent d ta * 2 ≠ 2)
    (haLt : to_.percent d ta * 2 - 1 < 0)
    (hbN0 : to_.percent d tb * 2 ≠ 0) (hbN2 : to_.percent d tb * 2 ≠ 2)
    (hbGe : ¬(to_.percent d tb * 2 - 1 < 0)) :
    (ElasticInOut.new vo to_ i f d).p = to_.to_f64 d * (45 / 100) ∧
    (ElasticInOut.new vo to_ i f d).s = to_.to_f64 d * (45 / 100) * (1 / 4) ∧
    (ElasticInOut.new vo to_ i f d).run vo to_ m t0 = i ∧
    (ElasticInOut.new vo to_ i f d).run vo to_ m t2 = f ∧
    (ElasticInOut.new vo to_ i f d).run vo to_ m ta =
      vo.add
        (vo.scale
          (vo.scale (vo.sub f i) (m.pow 2 ((to_.percent d ta * 2 - 1) * 10)))
          (-(1 / 2) * m.sin ((to_.to_f64 d * (to_.percent d ta * 2 - 1) -
              to_.to_f64 d * (45 / 100) * (1 / 4)) *
            (2 * m.pi) / (to_.to_f64 d * (45 / 100)))))
        i ∧
    (ElasticInOut.new vo to_ i f d).run vo to_ m tb =
      vo.add
        (vo.scale
          (vo.scale (vo.sub f i) (m.pow 2 (-10 * (to_.percent d tb * 2 - 1))))
          (m.sin ((to_.to_f64 d * (to_.percent d tb * 2 - 1) -
              to_.to_f64 d * (45 / 100) * (1 / 4)) *
            (2 * m.pi) / (to_.to_f64 d * (45 / 100))) * (1 / 2)))
        f := by
  refine ⟨rfl, rfl, ?_, ?_, ?_, ?_⟩ <;>
    simp [ElasticInOut.run, ElasticInOut.new, h0, h2, haN0, haN2, haLt,
      hbN0, hbN2, hbGe]

/-- Witness for C4 at concrete inputs: `f64` duration `2`, times `0`, `2`,
`1/2` (In-shaped half) and `3/2` (Out-shaped half); under the trivial math
backend the oscillation vanishes and the two halves evaluate to their
offsets `3` and `7`. -/
theorem elastic_in_out_formula_witness :
    f64TimeOps.percent 2 0 * 2 = 0 ∧ f64TimeOps.percent 2 2 * 2 = 2 ∧
    f64TimeOps.percent 2 (1 / 2) * 2 ≠ 0 ∧ f64TimeOps.percent 2 (1 / 2) * 2 ≠ 2 ∧
    f64TimeOps.percent 2 (1 / 2) * 2 - 1 < 0 ∧
    f64TimeOps.percent 2 (3 / 2) * 2 ≠ 0 ∧ f64TimeOps.percent 2 (3 / 2) * 2 ≠ 2 ∧
    ¬(f64TimeOps.percent 2 (3 / 2) * 2 - 1 < 0) ∧
    (ElasticInOut.new f64ValueOps f64TimeOps (3 : ℚ) 7 (2 : ℚ)).run f64ValueOps
      f64TimeOps trivMathOps (1 / 2) = 3 ∧
    (ElasticInOut.new f64ValueOps f64TimeOps (3 : ℚ) 7 (2 : ℚ)).run f64ValueOps
      f64TimeOps trivMathOps (3 / 2) = 7 := by
  have h := elastic_in_out_formula f64ValueOps f64TimeOps trivMathOps
    (3 : ℚ) 7 (2 : ℚ) 0 2 (1 / 2) (3 / 2)
    (by norm_num [f64TimeOps]) (by norm_num [f64TimeOps])
    (by norm_num [f64TimeOps]) (by norm_num [f64TimeOps])
    (by norm_num [f64TimeOps]) (by norm_num [f64TimeOps])
    (by norm_num [f64TimeOps]) (by norm_num [f64TimeOps])
  refine ⟨by norm_num [f64TimeOps], by norm_num [f64TimeOps],
    by norm_num [f64TimeOps], by norm_num [f64TimeOps],
    by norm_num [f64TimeOps], by norm_num [f64TimeOps],
    by norm_num [f64TimeOps], by norm_num [f64TimeOps],
    h.2.2.2.2.1.trans (by norm_num [f64ValueOps, f64TimeOps, trivMathOps]),
    h.2.2.2.2.2.trans (by norm_num [f64ValueOps, f64TimeOps, trivMathOps])⟩

/-- C5: `Linear::tween` returns exactly `value_delta.scale(percent)` for
every percent, with no special-casing at the boundaries; in particular it
returns the zero value at percent `0` and `value_delta` at percent `1`
whenever the value type's `scale` satisfies its boundary contract. -/
theorem linear_tween_formula {V : Type} (vo : TweenValueOps V)
    (value_delta : V) (percent : ℚ)
    (h0 : vo.scale value_delta 0 = vo.zero)
    (h1 : vo.scale value_delta 1 = value_delta) :
    Linear.tween vo value_delta percent = vo.scale value_delta percent ∧
    Linear.tween vo value_delta 0 = vo.zero ∧
    Linear.tween vo value_delta 1 = value_delta :=
  ⟨rfl, h0, h1⟩

/-- Witness for C5 at concrete inputs: the `f64` value `4` at percent
`1/3`. -/
theorem linear_tween_formula_witness :
    f64ValueOps.scale (4 : ℚ) 0 = f64ValueOps.zero ∧
    f64ValueOps.scale (4 : ℚ) 1 = (4 : ℚ) ∧
    Linear.tween f64ValueOps (4 : ℚ) (1 / 3) = f64ValueOps.scale (4 : ℚ) (1 / 3) ∧
    Linear.tween f64ValueOps (4 : ℚ) 0 = f64ValueOps.zero ∧
    Linear.tween f64ValueOps (4 : ℚ) 1 = (4 : ℚ) := by
  have h := linear_tween_formula f64ValueOps (4 : ℚ) (1 / 3)
    (by norm_num [f64ValueOps]) (by norm_num [f64ValueOps])
  exact ⟨by norm_num [f64ValueOps], by norm_num [f64ValueOps], h.1, h.2.1, h.2.2⟩

/-- C6: for each Elastic family, the absolute-time formulation (`run`) and
the percent/delta formulation (`Tween2::tween`) agree at the two canonical
boundaries: at percent `0`, `run` returns `initial_value` while `tween`
returns zero; at percent `1` (doubled percent `2` for In-Out), `run`
returns `final_value` while `tween` returns exactly `value_delta`; hence
`initial_value` plus the increment equals the absolute result at both
boundaries (given that the value operations cancel as in every provided
implementation). -/
theorem elastic_run_tween2_boundary_agreement {V T : Type}
    (vo : TweenValueOps V) (to_ : TweenTimeOps T) (m : MathOps)
    (i f : V) (d : T) (e2i : ElasticIn2 T) (e2o : ElasticOut2 T)
    (e2io : ElasticInOut2 T) (t0 t1 : T)
    (hz : vo.add i vo.zero = i)
    (hc : vo.add i (vo.sub f i) = f)
    (hp0 : to_.percent d t0 = 0) (hp1 : to_.percent d t1 = 1) :
    ((ElasticIn.new vo to_ i f d).run vo to_ m t0 = i ∧
      e2i.tween vo to_ m (vo.sub f i) (to_.percent d t0) = vo.zero ∧
      vo.add i (e2i.tween vo to_ m (vo.sub f i) (to_.percent d t0)) =
        (ElasticIn.new vo to_ i f d).run vo to_ m t0 ∧
      (ElasticIn.new vo to_ i f d).run vo to_ m t1 = f ∧
      e2i.tween vo to_ m (vo.sub f i) (to_.percent d t1) = vo.sub f i ∧
      vo.add i (e2i.tween vo to_ m (vo.sub f i) (to_.percent d t1)) =
        (ElasticIn.new vo to_ i f d).run vo to_ m t1) ∧
    ((ElasticOut.new vo to_ i f d).run vo to_ m t0 = i ∧
      e2o.tween vo to_ m (vo.sub f i) (to_.percent d t0) = vo.zero ∧
      vo.add i (e2o.tween vo to_ m (vo.sub f i) (to_.percent d t0)) =
        (ElasticOut.new vo to_ i f d).run vo to_ m t0 ∧
      (ElasticOut.new vo to_ i f d).run vo to_ m t1 = f ∧
      e2o.tween vo to_ m (vo.sub f i) (to_.percent d t1) = vo.sub f i ∧
      vo.add i (e2o.tween vo to_ m (vo.sub f i) (to_.percent d t1)) =
        (ElasticOut.new vo to_ i f d).run vo to_ m t1) ∧
    ((ElasticInOut.new vo to_ i f d).run vo to_ m t0 = i ∧
      e2io.tween vo to_ m (vo.sub f i) (to_.percent d t0) = vo.zero ∧
      vo.add i (e2io.tween vo to_ m (vo.sub f i) (to_.percent d t0)) =
        (ElasticInOut.new vo to_ i f d).run vo to_ m t0 ∧
      (ElasticInOut.new vo to_ i f d).run vo to_ m t1 = f ∧
      e2io.tween vo to_ m (vo.sub f i) (to_.percent d t1) = vo.sub f i ∧
      vo.add i (e2io.tween vo to_ m (vo.sub f i) (to_.percent d t1)) =
        (ElasticInOut.new vo to_ i f d).run vo to_ m t1) := by
  refine ⟨⟨?_, ?_, ?_, ?_, ?_, ?_⟩, ⟨?_, ?_, ?_, ?_, ?_, ?_⟩,
    ⟨?_, ?_, ?_, ?_, ?_, ?_⟩⟩ <;>
    simp [ElasticIn.run, ElasticOut.run, ElasticInOut.run, ElasticIn.new,
      ElasticOut.new, ElasticInOut.new, ElasticIn2.tween, ElasticOut2.tween,
      ElasticInOut2.tween, hp0, hp1, hz, hc]

/-- Witness for C6 at concrete inputs: `f64` values `3 → 7`, duration `2`,
boundary times `0` and `2`, with arbitrary concrete `Tween2` records. -/
theorem elastic_run_tween2_boundary_agreement_witness :
    f64ValueOps.add (3 : ℚ) f64ValueOps.zero = 3 ∧
    f64ValueOps.add (3 : ℚ) (f64ValueOps.sub 7 3) = 7 ∧
    f64TimeOps.percent 2 0 = 0 ∧ f64TimeOps.percent 2 2 = 1 ∧
    (ElasticIn.new f64ValueOps f64TimeOps (3 : ℚ) 7 (2 : ℚ)).run f64ValueOps
      f64TimeOps trivMathOps 0 = 3 ∧
    (ElasticIn.new f64ValueOps f64TimeOps (3 : ℚ) 7 (2 : ℚ)).run f64ValueOps
      f64TimeOps trivMathOps 2 = 7 := by
  have h := elastic_run_tween2_boundary_agreement f64ValueOps f64TimeOps
    trivMathOps (3 : ℚ) 7 (2 : ℚ)
    { duration := (2 : ℚ), three_tenths := 3 / 5, s := 3 / 20 }
    { duration := (2 : ℚ), three_tenths := 3 / 5, s := 3 / 20 }
    { duration := (2 : ℚ), p := 9 / 10, s := 9 / 40 } 0 2
    (by norm_num [f64ValueOps]) (by norm_num [f64ValueOps])
    (by norm_num [f64TimeOps]) (by norm_num [f64TimeOps])
  exact ⟨by norm_num [f64ValueOps], by norm_num [f64ValueOps],
    by norm_num [f64TimeOps], by norm_num [f64TimeOps], h.1.1, h.1.2.2.2.1⟩

/-- C7: every provided `TweenValue` implementation's `scale` satisfies the
boundary contract `scale(x, 1.0) == x` and `scale(x, 0.0) == ZERO`: here
for the `f64`, `f32` and integer implementations. -/
theorem tween_value_scale_contract (x : ℚ) (n : ℤ) :
    f64Scale x 1 = x ∧ f64Scale x 0 = 0 ∧
    f32Scale x 1 = x ∧ f32Scale x 0 = 0 ∧
    intScale n 1 = n ∧ intScale n 0 = 0 := by
  refine ⟨mul_one x, mul_zero x, mul_one x, mul_zero x, ?_, ?_⟩ <;>
    simp [intScale]

/-- C8: the time capability's `is_complete(current, duration)` returns
`true` exactly when `current >= duration`, for every ordered time type. -/
theorem is_complete_iff {T : Type} [LE T] [∀ a b : T, Decidable (a ≤ b)]
    (current_time duration : T) :
    TweenTime.is_complete current_time duration = true ↔
      current_time ≥ duration := by
  simp [TweenTime.is_complete, ge_iff_le]

/-- C9: two evaluation runs with identical construction parameters and an
identical sequence of evaluation inputs produce identical output value
sequences (determinism as a two-run property), shown for the `ElasticIn`
absolute-time evaluator over a list of times and the `Linear` percent/delta
evaluator. -/
theorem run_deterministic {V T : Type} (vo : TweenValueOps V)
    (to_ : TweenTimeOps T) (m : MathOps) (i1 f1 i2 f2 : V) (d1 d2 : T)
    (v1 v2 : V) (percent : ℚ) (ts : List T)
    (hi : i1 = i2) (hf : f1 = f2) (hd : d1 = d2) (hv : v1 = v2) :
    ts.map ((ElasticIn.new vo to_ i1 f1 d1).run vo to_ m) =
      ts.map ((ElasticIn.new vo to_ i2 f2 d2).run vo to_ m) ∧
    Linear.tween vo v1 percent = Linear.tween vo v2 percent := by
  subst hi; subst hf; subst hd; subst hv; exact ⟨rfl, rfl⟩

/-- Witness for C9 at concrete inputs: two `f64` `ElasticIn` curves
`3 → 7` over duration `2` evaluated on the times `0, 1, 2`, and `Linear`
on the value `4` at percent `1/2`. -/
theorem run_deterministic_witness :
    (3 : ℚ) = 3 ∧ (7 : ℚ) = 7 ∧ (2 : ℚ) = 2 ∧ (4 : ℚ) = 4 ∧
    ([0, 1, 2] : List ℚ).map
        ((ElasticIn.new f64ValueOps f64TimeOps (3 : ℚ) 7 (2 : ℚ)).run
          f64ValueOps f64TimeOps trivMathOps) =
      ([0, 1, 2] : List ℚ).map
        ((ElasticIn.new f64ValueOps f64TimeOps (3 : ℚ) 7 (2 : ℚ)).run
          f64ValueOps f64TimeOps trivMathOps) ∧
    Linear.tween f64ValueOps (4 : ℚ) (1 / 2) =
      Linear.tween f64ValueOps (4 : ℚ) (1 / 2) := by
  have h := run_deterministic f64ValueOps f64TimeOps trivMathOps
    (3 : ℚ) 7 3 7 (2 : ℚ) 2 (4 : ℚ) 4 (1 / 2) [0, 1, 2] rfl rfl rfl rfl
  exact ⟨rfl, rfl, rfl, rfl, h.1, h.2⟩

/-- C10: every `FnMut(Value, f64) -> Value` closure is usable as a `Tween`:
its `tween(value_delta, percent)` returns exactly the closure's result on
those arguments (threading the closure's captured mutable state), and its
`is_finite()` returns `true`, the unoverridden trait default. -/
theorem fn_mut_tween_forwarding {S V : Type} (f : S → V → ℚ → V × S)
    (state : S) (value_delta : V) (percent : ℚ) :
    (fnMutTween S V f).tween state value_delta percent =
      f state value_delta percent ∧
    (fnMutTween S V f).is_finite state = true :=
  ⟨rfl, rfl⟩

end TweenLib
